import Mathlib

/-
Verification of dr_param's YAML conversion layer
(src/include/dr_param/yaml.hpp) against its specification.

The external document model (yaml-cpp) is embedded as an inductive tree of
nodes.  The conversion functions of the header are translated directly;
functions that the header only declares (their bodies live in a translation
unit that is not part of src/) are modelled from the spec and say so in
their doc comments.
-/

namespace DrParam

/-- Structural kind of a YAML node (YAML::NodeType::value).  The Undefined
kind of yaml-cpp is omitted: nodes of a parsed document are never undefined,
and absent map entries are modelled with Option instead. -/
inductive NodeKind
  | null
  | scalar
  | sequence
  | map
deriving DecidableEq

/-- The external document tree (YAML::Node), immutable: a kind, scalar text,
ordered children for sequences, ordered (key, child) entries for maps. -/
inductive Node
  | null
  | scalar (text : String)
  | seq (children : List Node)
  | map (entries : List (String × Node))

/-- The kind of a node (YAML::Node::Type()). -/
def Node.kind : Node → NodeKind
  | .null => .null
  | .scalar _ => .scalar
  | .seq _ => .sequence
  | .map _ => .map

/-- Modelled from the spec: the header declares `std::string
toString(YAML::NodeType::value)` but its body is not under src/.  The spec
names the kinds scalar / sequence / map / null; this renders them as such. -/
def nodeTypeToString : NodeKind → String
  | .null => "null"
  | .scalar => "scalar"
  | .sequence => "sequence"
  | .map => "map"

/-- Description of a YAML node in a node tree (struct YamlNodeDescription). -/
structure YamlNodeDescription where
  name : String
  user_type : String
  node_type : NodeKind
deriving DecidableEq

/-- An error that occured during the conversion of a node tree to an object
(struct YamlError): a human readable message and a trace through the node
tree to the root node. -/
structure YamlError where
  message : String
  trace : List YamlNodeDescription
deriving DecidableEq

/-- Modelled from the spec: `YamlError::appendTrace` is declared in the
header but defined in a translation unit that is not under src/.  The spec
says each ascending level appends (not prepends) its descriptor, so the
trace grows outward from the leaf: the descriptor is pushed onto the end. -/
def YamlError.appendTrace (e : YamlError) (d : YamlNodeDescription) : YamlError :=
  { message := e.message, trace := e.trace ++ [d] }

/-- Result type used by YAML parsing functions (YamlResult<T> =
dr::result<T, YamlError>). -/
abbrev YamlResult (T : Type) := Except YamlError T

/-- Closed universe of target types the claims need: the registered
primitive conversions (represented by string and int), std::array<T, N>,
std::vector<T> and std::map<std::string, T>. -/
inductive Ty
  | str
  | int
  | array (t : Ty) (n : Nat)
  | vec (t : Ty)
  | map (t : Ty)

/-- Untyped converted values (the T produced by a conversion). -/
inductive Value
  | vstr (s : String)
  | vint (n : Int)
  | varr (vs : List Value)
  | vmap (entries : List (String × Value))

/-- Trait `can_parse_yaml<T> = estd::can_convert_tagged_v<YAML::Node const &,
ParseYaml<T>>`: true exactly when a `convert(YAML::Node const &,
ParseYaml<T>)` overload exists.  Primitives are declared with that tag, and
the array and vector templates are SFINAE-guarded by `can_parse_yaml<T>` of
the element.  The map converter is declared with second parameter
`YamlResult<std::map<std::string, T>>` instead of
`ParseYaml<std::map<std::string, T>>`, so no overload with the ParseYaml tag
exists for map types and the trait is false for them. -/
def can_parse_yaml : Ty → Bool
  | .str => true
  | .int => true
  | .array t _ => can_parse_yaml t
  | .vec t => can_parse_yaml t
  | .map _ => false

/-- Modelled from the spec: the primitive converter
`convert(node, ParseYaml<std::string>)` is declared in the header, body not
under src/.  Per spec 4.2 it requires a scalar node and yields its text. -/
def convertString (node : Node) : YamlResult Value :=
  match node with
  | .scalar s => .ok (.vstr s)
  | _ => .error ⟨"unexpected node type, expected scalar, got " ++ nodeTypeToString node.kind, []⟩

/-- Modelled from the spec: the primitive converter
`convert(node, ParseYaml<int>)` is declared in the header, body not under
src/.  Per spec 4.2 it requires a scalar node and parses its text as a
decimal integer, failing when the text does not match that grammar. -/
def convertInt (node : Node) : YamlResult Value :=
  match node with
  | .scalar s =>
    match s.toInt? with
    | some n => .ok (.vint n)
    | none => .error ⟨"failed to parse integer: " ++ s, []⟩
  | _ => .error ⟨"unexpected node type, expected scalar, got " ++ nodeTypeToString node.kind, []⟩

/-- Element loop of the std::array conversion (yaml.hpp lines 143-149):
iterates the children with an int index, guards `index >= N` with a
"sequence too long" error, converts each element through the dispatcher for
T (the parameter elC), appends the index-as-text descriptor with the
element's actual kind on failure, and stores the value at the index on
success.  The C++ compares the signed int index with the unsigned N; the
index starts at 0 and only grows, so Nat arithmetic is faithful. -/
def arrayLoop (elC : Node → YamlResult Value) (N : Nat) :
    List Node → Nat → List Value → YamlResult Value
  | [], _, acc => .ok (.varr acc)
  | c :: rest, index, acc =>
    if index ≥ N then
      .error ⟨"sequence too long, expected " ++ toString N ++ ", now at index " ++ toString index, []⟩
    else
      match elC c with
      | .error e => .error (e.appendTrace ⟨toString index, "", c.kind⟩)
      | .ok v => arrayLoop elC N rest (index + 1) (acc ++ [v])

/-- `convert(node, ParseYaml<std::array<T, N>>)` (yaml.hpp lines 135-152):
requires a sequence node, then exactly N elements, then runs the element
loop. -/
def convertArray (elC : Node → YamlResult Value) (N : Nat) (node : Node) : YamlResult Value :=
  match node with
  | .seq children =>
    if children.length ≠ N then
      .error ⟨"wrong number of elements, expected " ++ toString N ++ ", got " ++ toString children.length, []⟩
    else
      arrayLoop elC N children 0 []
  | _ => .error ⟨"unexpected node type, expected sequence, got " ++ nodeTypeToString node.kind, []⟩

/-- Element loop of the std::vector conversion (yaml.hpp lines 164-170):
same as the array loop but with no bound on the index. -/
def vectorLoop (elC : Node → YamlResult Value) :
    List Node → Nat → List Value → YamlResult Value
  | [], _, acc => .ok (.varr acc)
  | c :: rest, index, acc =>
    match elC c with
    | .error e => .error (e.appendTrace ⟨toString index, "", c.kind⟩)
    | .ok v => vectorLoop elC rest (index + 1) (acc ++ [v])

/-- `convert(node, ParseYaml<std::vector<T>>)` (yaml.hpp lines 155-173):
a null node yields an empty vector, a non-sequence node is a kind mismatch,
otherwise every element is converted in order. -/
def convertVector (elC : Node → YamlResult Value) (node : Node) : YamlResult Value :=
  match node with
  | .null => .ok (.varr [])
  | .seq children => vectorLoop elC children 0 []
  | _ => .error ⟨"unexpected node type, expected sequence, got " ++ nodeTypeToString node.kind, []⟩

/-- Insertion into the result map.  The source writes
`result.insert(name, std::move(*element))`, which is not a valid
std::map overload; the intended call is the pair form of std::map::insert,
which does not overwrite an existing key (first occurrence wins). -/
def mapInsert (result : List (String × Value)) (name : String) (v : Value) :
    List (String × Value) :=
  if result.any (fun p => p.1 == name) then result else result ++ [(name, v)]

/-- Entry loop of the std::map conversion (yaml.hpp lines 183-188): converts
each entry's value through the dispatcher for T, using the entry's key
(`i->first.Scalar()`) as descriptor name and the value node's actual kind
(`i->second.Type()`) on failure. -/
def mapLoop (elC : Node → YamlResult Value) :
    List (String × Node) → List (String × Value) → YamlResult Value
  | [], acc => .ok (.vmap acc)
  | (name, child) :: rest, acc =>
    match elC child with
    | .error e => .error (e.appendTrace ⟨name, "", child.kind⟩)
    | .ok v => mapLoop elC rest (mapInsert acc name v)

/-- Body of the map converter (yaml.hpp lines 176-191).  Note its C++
declaration carries the tag `YamlResult<std::map<std::string, T>>`, not
`ParseYaml<std::map<std::string, T>>`, so the dispatcher never selects it
(see can_parse_yaml). -/
def convertMap (elC : Node → YamlResult Value) (node : Node) : YamlResult Value :=
  match node with
  | .map entries => mapLoop elC entries []
  | _ => .error ⟨"unexpected node type, expected map, got " ++ nodeTypeToString node.kind, []⟩

/-- Tag dispatch: `convert(node, ParseYaml<T>)` resolved per target type.
The map line records what the converter body at yaml.hpp lines 176-191
computes; overload resolution with the ParseYaml tag never reaches it
(can_parse_yaml is false on map types), which parseYaml accounts for. -/
def convert : Ty → Node → YamlResult Value
  | .str, n => convertString n
  | .int, n => convertInt n
  | .array t N, n => convertArray (convert t) N n
  | .vec t, n => convertVector (convert t) n
  | .map t, n => convertMap (convert t) n

/-- `parseYaml<T>(node)` (yaml.hpp lines 58-62): static_asserts
`can_parse_yaml<T>` and forwards to `convert(node, ParseYaml<T>{})`.
`none` models the compile-time rejection (the static_assert fires and no
viable overload exists); `some` carries the run-time result. -/
def parseYaml (t : Ty) (node : Node) : Option (YamlResult Value) :=
  if can_parse_yaml t then some (convert t node) else none

/-- Model of the exceptions yaml-cpp's `Node::as<T>` throws on a failed
conversion (external library): either a std::system_error carrying a native
code, or another std::exception; both expose a what() string.  All yaml-cpp
conversion exceptions derive from std::runtime_error, hence from
std::exception. -/
inductive NativeError
  | sysError (code : Nat) (what : String)
  | stdError (what : String)
deriving DecidableEq

/-- Error codes of dr_error's DetailedError as the claims need them:
std::errc::invalid_argument, or an error code taken from a caught
std::system_error. -/
inductive ErrCode
  | invalidArgument
  | fromNative (code : Nat)
deriving DecidableEq

/-- dr::DetailedError (external dr_error library): an error code plus a
message, this layer's error kind at the convertChild boundary. -/
structure DetailedError where
  code : ErrCode
  message : String
deriving DecidableEq

/-- `node[key]` followed by the definedness test `if (node[key])`: on a map
node, the value of the first entry with the key, if any; on other kinds
yaml-cpp yields an undefined node, which tests false. -/
def nodeLookup (node : Node) (key : String) : Option Node :=
  match node with
  | .map entries => (entries.find? (fun p => p.1 == key)).map Prod.snd
  | _ => none

/-- `setIfExists<T>(output, node, key)` (yaml.hpp lines 72-75): if the map
has the key, `output = node[key].as<T>()`, else output is untouched.  The
function does not catch, so a conversion failure of as<T> (the parameter
asT) propagates as the underlying native error; the returned value is the
final value of output. -/
def setIfExists (asT : Node → Except NativeError Value) (output : Value)
    (node : Node) (key : String) : Except NativeError Value :=
  match nodeLookup node key with
  | none => .ok output
  | some child => asT child

/-- Translation of a caught native exception into a DetailedError
(yaml.hpp lines 84-88): a std::system_error keeps its code, any other
std::exception becomes invalid_argument; both have their what() prefixed
with "failed to convert node: ". -/
def translateNative : NativeError → DetailedError
  | .sysError code what => ⟨.fromNative code, "failed to convert node: " ++ what⟩
  | .stdError what => ⟨.invalidArgument, "failed to convert node: " ++ what⟩

/-- `convertChild<T>(node, key)` (yaml.hpp lines 79-89): a missing key is an
invalid_argument DetailedError "no such key: <key>"; otherwise
`node[key].as<T>()` runs inside try/catch and every native failure is
translated by translateNative. -/
def convertChild (asT : Node → Except NativeError Value) (node : Node)
    (key : String) : Except DetailedError Value :=
  match nodeLookup node key with
  | none => .error ⟨.invalidArgument, "no such key: " ++ key⟩
  | some child =>
    match asT child with
    | .ok v => .ok v
    | .error e => .error (translateNative e)

/-- Model of yaml-cpp `Node::as<int>` (external library): decodes a scalar
whose text parses as a decimal integer and throws a bad-conversion
exception (a std::exception) otherwise. -/
def yamlCppAsInt : Node → Except NativeError Value
  | .scalar s =>
    match s.toInt? with
    | some n => .ok (.vint n)
    | none => .error (.stdError "yaml-cpp: error at line 0, column 0: bad conversion")
  | _ => .error (.stdError "yaml-cpp: error at line 0, column 0: bad conversion")

/-- The fixed-array element loop with the `index >= N` branch removed,
everything else identical to arrayLoop.  Used only to state that under the
size precondition the branch is dead: the guarded loop coincides with this
guard-free one. -/
def arrayLoopNoGuard (elC : Node → YamlResult Value) :
    List Node → Nat → List Value → YamlResult Value
  | [], _, acc => .ok (.varr acc)
  | c :: rest, index, acc =>
    match elC c with
    | .error e => .error (e.appendTrace ⟨toString index, "", c.kind⟩)
    | .ok v => arrayLoopNoGuard elC rest (index + 1) (acc ++ [v])

/-- If every element before c converts, and c fails with error e, the vector
loop stops at c and returns e with the index-as-text descriptor appended. -/
theorem vectorLoop_first_error (elC : Node → YamlResult Value) (c : Node)
    (e : YamlError) (hc : elC c = .error e) :
    ∀ (pre : List Node), (∀ x ∈ pre, ∃ v, elC x = .ok v) →
    ∀ (post : List Node) (index : Nat) (acc : List Value),
      vectorLoop elC (pre ++ c :: post) index acc =
        .error (e.appendTrace ⟨toString (index + pre.length), "", c.kind⟩) := by
  intro pre
  induction pre with
  | nil =>
    intro _ post index acc
    simp [vectorLoop, hc]
  | cons x pre' ih =>
    intro hpre post index acc
    obtain ⟨v, hv⟩ := hpre x (List.mem_cons_self x pre')
    have h2 : ∀ y ∈ pre', ∃ w, elC y = .ok w :=
      fun y hy => hpre y (List.mem_cons_of_mem _ hy)
    have ih' := ih h2 post (index + 1) (acc ++ [v])
    have harith : index + 1 + pre'.length = index + (x :: pre').length := by
      simp only [List.length_cons]
      omega
    rw [harith] at ih'
    simpa only [List.cons_append, vectorLoop, hv] using ih'

/-- Same statement for the array loop, provided the index stays below N all
the way to the failing element. -/
theorem arrayLoop_first_error (elC : Node → YamlResult Value) (N : Nat)
    (c : Node) (e : YamlError) (hc : elC c = .error e) :
    ∀ (pre : List Node), (∀ x ∈ pre, ∃ v, elC x = .ok v) →
    ∀ (post : List Node) (index : Nat) (acc : List Value),
      index + pre.length < N →
      arrayLoop elC N (pre ++ c :: post) index acc =
        .error (e.appendTrace ⟨toString (index + pre.length), "", c.kind⟩) := by
  intro pre
  induction pre with
  | nil =>
    intro _ post index acc hN
    simp only [List.length_nil, Nat.add_zero] at hN
    simp [arrayLoop, hc, Nat.not_le.mpr hN]
  | cons x pre' ih =>
    intro hpre post index acc hN
    obtain ⟨v, hv⟩ := hpre x (List.mem_cons_self x pre')
    have h2 : ∀ y ∈ pre', ∃ w, elC y = .ok w :=
      fun y hy => hpre y (List.mem_cons_of_mem _ hy)
    have hN' : index + 1 + pre'.length < N := by
      simp only [List.length_cons] at hN
      omega
    have hx : ¬ index ≥ N := by
      simp only [List.length_cons] at hN
      omega
    have ih' := ih h2 post (index + 1) (acc ++ [v]) hN'
    have harith : index + 1 + pre'.length = index + (x :: pre').length := by
      simp only [List.length_cons]
      omega
    rw [harith] at ih'
    simpa only [List.cons_append, arrayLoop, hv, if_neg hx] using ih'

/-- If every entry value before (name, c) converts and c fails with error e,
the map loop stops there and returns e with the key-named descriptor
appended. -/
theorem mapLoop_first_error (elC : Node → YamlResult Value) (name : String)
    (c : Node) (e : YamlError) (hc : elC c = .error e) :
    ∀ (preE : List (String × Node)), (∀ p ∈ preE, ∃ v, elC p.2 = .ok v) →
    ∀ (postE : List (String × Node)) (acc : List (String × Value)),
      mapLoop elC (preE ++ (name, c) :: postE) acc =
        .error (e.appendTrace ⟨name, "", c.kind⟩) := by
  intro preE
  induction preE with
  | nil =>
    intro _ postE acc
    simp [mapLoop, hc]
  | cons p preE' ih =>
    intro hpre postE acc
    obtain ⟨pn, pc⟩ := p
    obtain ⟨v, hv⟩ := hpre (pn, pc) (List.mem_cons_self _ preE')
    have h2 : ∀ q ∈ preE', ∃ w, elC q.2 = .ok w :=
      fun q hq => hpre q (List.mem_cons_of_mem _ hq)
    have ih' := ih h2 postE (mapInsert acc pn v)
    simp only at hv
    simpa only [List.cons_append, mapLoop, hv] using ih'

/-- Below the bound N, the guarded array loop coincides with the guard-free
one. -/
theorem arrayLoop_eq_noGuard (elC : Node → YamlResult Value) (N : Nat) :
    ∀ (cs : List Node) (index : Nat) (acc : List Value), index + cs.length ≤ N →
      arrayLoop elC N cs index acc = arrayLoopNoGuard elC cs index acc := by
  intro cs
  induction cs with
  | nil =>
    intro index acc h
    rfl
  | cons c rest ih =>
    intro index acc h
    have hx : ¬ index ≥ N := by
      simp only [List.length_cons] at h
      omega
    have h' : index + 1 + rest.length ≤ N := by
      simp only [List.length_cons] at h
      omega
    simp only [arrayLoop, arrayLoopNoGuard, if_neg hx]
    cases helC : elC c with
    | error e => rfl
    | ok v => exact ih (index + 1) (acc ++ [v]) h'

/-- C3: the dynamic-sequence conversion maps a null node to success with the
empty sequence, and any node that is neither null-kind nor sequence-kind to
a kind-mismatch failure. -/
theorem vector_null_default_and_kind_mismatch
    (elC : Node → YamlResult Value) (node : Node)
    (h1 : node.kind ≠ .null) (h2 : node.kind ≠ .sequence) :
    convertVector elC .null = .ok (.varr []) ∧
    convertVector elC node =
      .error ⟨"unexpected node type, expected sequence, got " ++
        nodeTypeToString node.kind, []⟩ := by
  refine ⟨rfl, ?_⟩
  cases node with
  | null => exact absurd rfl h1
  | seq cs => exact absurd rfl h2
  | scalar s => rfl
  | map es => rfl

/-- Witness for vector_null_default_and_kind_mismatch at a map node. -/
theorem vector_null_default_and_kind_mismatch_witness :
    convertVector (convert .int) .null = .ok (.varr []) ∧
    convertVector (convert .int) (.map []) =
      .error ⟨"unexpected node type, expected sequence, got map", []⟩ :=
  vector_null_default_and_kind_mismatch (convert .int) (.map [])
    (by intro h; cases h) (by intro h; cases h)

/-- C4: on a sequence node whose element count differs from N, the
fixed-size array conversion fails with a message naming both the expected
length N and the actual length; both rendered lengths occur in the message
text. -/
theorem array_size_mismatch (elC : Node → YamlResult Value) (N : Nat)
    (cs : List Node) (h : cs.length ≠ N) :
    convertArray elC N (.seq cs) =
      .error ⟨"wrong number of elements, expected " ++ toString N ++
        ", got " ++ toString cs.length, []⟩ ∧
    (toString N).data <:+:
      ("wrong number of elements, expected " ++ toString N ++
        ", got " ++ toString cs.length).data ∧
    (toString cs.length).data <:+:
      ("wrong number of elements, expected " ++ toString N ++
        ", got " ++ toString cs.length).data := by
  refine ⟨by simp [convertArray, h], ?_, ?_⟩
  · refine ⟨"wrong number of elements, expected ".data,
      (", got " ++ toString cs.length).data, ?_⟩
    simp [String.data_append]
  · refine ⟨("wrong number of elements, expected " ++ toString N ++ ", got ").data,
      [], ?_⟩
    simp [String.data_append]

/-- Witness for array_size_mismatch: a 3-element sequence against array
length 4, whose message contains both "4" and "3". -/
theorem array_size_mismatch_witness :
    convertArray (convert .int) 4 (.seq [.scalar "1", .scalar "2", .scalar "3"]) =
      .error ⟨"wrong number of elements, expected 4, got 3", []⟩ ∧
    "4".data <:+: "wrong number of elements, expected 4, got 3".data ∧
    "3".data <:+: "wrong number of elements, expected 4, got 3".data := by
  have h := array_size_mismatch (convert .int) 4
    [.scalar "1", .scalar "2", .scalar "3"] (by decide)
  exact ⟨h.1, by decide, by decide⟩

/-- C1: in both the fixed-size array and the dynamic-sequence conversion,
if every element before index k converts and the element at index k fails,
the conversion stops at k (the result does not depend on the elements after
k, which appear only as the unconstrained post) and returns the child's
error with exactly one descriptor appended, named k rendered as text and
carrying that element node's actual kind. -/
theorem composite_first_failure (elC : Node → YamlResult Value) (N : Nat)
    (pre : List Node) (c : Node) (post : List Node) (e : YamlError)
    (hpre : ∀ x ∈ pre, ∃ v, elC x = .ok v)
    (hc : elC c = .error e)
    (hN : (pre ++ c :: post).length = N) :
    convertArray elC N (.seq (pre ++ c :: post)) =
      .error (e.appendTrace ⟨toString pre.length, "", c.kind⟩) ∧
    convertVector elC (.seq (pre ++ c :: post)) =
      .error (e.appendTrace ⟨toString pre.length, "", c.kind⟩) := by
  have hN' : pre.length + (post.length + 1) = N := by
    simpa [List.length_append, List.length_cons] using hN
  constructor
  · have hguard : 0 + pre.length < N := by omega
    have harr := arrayLoop_first_error elC N c e hc pre hpre post 0 [] hguard
    simp only [Nat.zero_add] at harr
    simpa [convertArray, hN] using harr
  · have hvec := vectorLoop_first_error elC c e hc pre hpre post 0 []
    simp only [Nat.zero_add] at hvec
    simpa [convertVector] using hvec

/-- Witness for composite_first_failure: element 1 of [a, [], b] is not a
scalar, so string conversion of the elements fails there. -/
theorem composite_first_failure_witness :
    convertArray (convert .str) 3 (.seq [.scalar "a", .seq [], .scalar "b"]) =
      .error ⟨"unexpected node type, expected scalar, got sequence",
        [⟨"1", "", .sequence⟩]⟩ ∧
    convertVector (convert .str) (.seq [.scalar "a", .seq [], .scalar "b"]) =
      .error ⟨"unexpected node type, expected scalar, got sequence",
        [⟨"1", "", .sequence⟩]⟩ := by
  have h := composite_first_failure (convert .str) 3 [.scalar "a"] (.seq [])
    [.scalar "b"] ⟨"unexpected node type, expected scalar, got sequence", []⟩
    (by
      intro x hx
      simp only [List.mem_singleton] at hx
      subst hx
      exact ⟨.vstr "a", rfl⟩)
    rfl rfl
  simpa [YamlError.appendTrace, Node.kind] using h

/-- C2: appendTrace appends (never prepends), and in a nested composite
conversion the resulting trace is the inner error's trace followed by the
inner descriptor and then the outer descriptor: position 0 is the failure
site, the last descriptor is nearest the document root. -/
theorem trace_failure_site_first (e0 : YamlError) (d : YamlNodeDescription)
    (elC : Node → YamlResult Value)
    (pre₁ : List Node) (pre₂ : List Node) (c : Node) (post₂ post₁ : List Node)
    (einner : YamlError)
    (hpre₂ : ∀ x ∈ pre₂, ∃ v, elC x = .ok v)
    (hc : elC c = .error einner)
    (hpre₁ : ∀ x ∈ pre₁, ∃ v, convertVector elC x = .ok v) :
    (e0.appendTrace d).trace = e0.trace ++ [d] ∧
    ∃ err, convertVector (convertVector elC)
        (.seq (pre₁ ++ (.seq (pre₂ ++ c :: post₂)) :: post₁)) = .error err ∧
      err.trace = einner.trace ++
        [⟨toString pre₂.length, "", c.kind⟩,
         ⟨toString pre₁.length, "", .sequence⟩] := by
  refine ⟨rfl, ?_⟩
  have hinner : convertVector elC (.seq (pre₂ ++ c :: post₂)) =
      .error (einner.appendTrace ⟨toString pre₂.length, "", c.kind⟩) := by
    have h := vectorLoop_first_error elC c einner hc pre₂ hpre₂ post₂ 0 []
    simp only [Nat.zero_add] at h
    simpa [convertVector] using h
  have houter := vectorLoop_first_error (convertVector elC) _ _ hinner pre₁
    hpre₁ post₁ 0 []
  simp only [Nat.zero_add] at houter
  refine ⟨_, by simpa [convertVector] using houter, ?_⟩
  simp [YamlError.appendTrace, Node.kind]

/-- Witness for trace_failure_site_first: a vector-of-vector conversion
failing at the inner non-scalar element [[map]] gives the trace
[inner index, outer index]. -/
theorem trace_failure_site_first_witness :
    (YamlError.mk "m" [⟨"n", "", .null⟩]).appendTrace ⟨"d", "", .map⟩ =
      ⟨"m", [⟨"n", "", .null⟩, ⟨"d", "", .map⟩]⟩ ∧
    ∃ err, convertVector (convertVector (convert .str))
        (.seq [.seq [.map []]]) = .error err ∧
      err.trace = [⟨"0", "", .map⟩, ⟨"0", "", .sequence⟩] := by
  have h := trace_failure_site_first ⟨"m", [⟨"n", "", .null⟩]⟩ ⟨"d", "", .map⟩
    (convert .str) [] [] (.map []) [] []
    ⟨"unexpected node type, expected scalar, got map", []⟩
    (by intro x hx; cases hx) rfl (by intro x hx; cases hx)
  refine ⟨by simp [YamlError.appendTrace], ?_⟩
  obtain ⟨err, herr, htrace⟩ := h.2
  exact ⟨err, by simpa using herr, by simpa using htrace⟩

/-- C5: the mapping converter cannot be selected by the dispatcher: its C++
overload takes the tag YamlResult<std::map<std::string, T>> instead of
ParseYaml<std::map<std::string, T>>, so can_parse_yaml is false on map
types and parseYaml for a map type is rejected at compile time (modelled as
none); the converter body itself would perform the kind-mismatch check the
claim describes. -/
theorem map_conversion_not_dispatched :
    can_parse_yaml (.map .int) = false ∧
    parseYaml (.map .int) (.map [("a", .scalar "1")]) = none ∧
    convertMap (convert .int) (.scalar "s") =
      .error ⟨"unexpected node type, expected map, got scalar", []⟩ :=
  ⟨rfl, rfl, rfl⟩

/-- C6: on a map node, setIfExists leaves the output unchanged and reports
no error when the key is absent, and fails with exactly the underlying
conversion error when the key is present but its value does not convert. -/
theorem setIfExists_spec (asT : Node → Except NativeError Value)
    (output : Value) (es : List (String × Node)) (key : String) :
    (nodeLookup (.map es) key = none →
      setIfExists asT output (.map es) key = .ok output) ∧
    (∀ child e, nodeLookup (.map es) key = some child → asT child = .error e →
      setIfExists asT output (.map es) key = .error e) := by
  constructor
  · intro h
    simp [setIfExists, h]
  · intro child e h he
    simp [setIfExists, h, he]

/-- Witness for setIfExists_spec: a missing key keeps the output, a present
key with an unconvertible value returns the underlying error. -/
theorem setIfExists_spec_witness :
    setIfExists yamlCppAsInt (.vint 7) (.map [("a", .null)]) "b" = .ok (.vint 7) ∧
    setIfExists yamlCppAsInt (.vint 7) (.map [("a", .seq [])]) "a" =
      .error (.stdError "yaml-cpp: error at line 0, column 0: bad conversion") := by
  refine ⟨(setIfExists_spec yamlCppAsInt (.vint 7) [("a", .null)] "b").1 rfl, ?_⟩
  exact (setIfExists_spec yamlCppAsInt (.vint 7) [("a", .seq [])] "a").2
    (.seq []) (.stdError "yaml-cpp: error at line 0, column 0: bad conversion")
    rfl rfl

/-- C7: convertChild returns the "no such key" DetailedError when the key is
absent, and translates every native conversion failure through
translateNative; no failure leaves the function in native form. -/
theorem convertChild_spec (asT : Node → Except NativeError Value)
    (es : List (String × Node)) (key : String) :
    (nodeLookup (.map es) key = none →
      convertChild asT (.map es) key =
        .error ⟨.invalidArgument, "no such key: " ++ key⟩) ∧
    (∀ child e, nodeLookup (.map es) key = some child → asT child = .error e →
      convertChild asT (.map es) key = .error (translateNative e)) := by
  constructor
  · intro h
    simp [convertChild, h]
  · intro child e h he
    simp [convertChild, h, he]

/-- Witness for convertChild_spec on both branches, including a
std::system_error whose code is preserved by the translation. -/
theorem convertChild_spec_witness :
    convertChild yamlCppAsInt (.map [("a", .null)]) "k" =
      .error ⟨.invalidArgument, "no such key: k"⟩ ∧
    convertChild (fun _ => .error (.sysError 5 "boom")) (.map [("a", .null)]) "a" =
      .error ⟨.fromNative 5, "failed to convert node: boom"⟩ := by
  refine ⟨(convertChild_spec yamlCppAsInt [("a", .null)] "k").1 rfl, ?_⟩
  exact (convertChild_spec (fun _ => .error (.sysError 5 "boom"))
    [("a", .null)] "a").2 .null (.sysError 5 "boom") rfl rfl

/-- C8: parseYaml succeeds exactly when the can_parse_yaml capability holds
for the target type (none models the compile-time rejection of an
unregistered type), and when it holds the call purely forwards to the
converter selected for the type. -/
theorem parseYaml_capability (t : Ty) (node : Node) :
    ((parseYaml t node).isSome ↔ can_parse_yaml t = true) ∧
    (can_parse_yaml t = true → parseYaml t node = some (convert t node)) ∧
    (can_parse_yaml t = false → parseYaml t node = none) := by
  cases h : can_parse_yaml t <;> simp [parseYaml, h]

/-- Witness for parseYaml_capability at a registered and an unregistered
type. -/
theorem parseYaml_capability_witness :
    can_parse_yaml .int = true ∧
    parseYaml .int (.scalar "5") = some (convert .int (.scalar "5")) ∧
    can_parse_yaml (.map .int) = false ∧
    parseYaml (.map .int) (.scalar "5") = none :=
  ⟨rfl, (parseYaml_capability .int (.scalar "5")).2.1 rfl, rfl,
    (parseYaml_capability (.map .int) (.scalar "5")).2.2 rfl⟩

/-- C9: each of the three composite converters appends a descriptor whose
kind field is the actual kind of the failing child node. -/
theorem descriptor_actual_kind (elC : Node → YamlResult Value) (N : Nat)
    (pre : List Node) (c : Node) (post : List Node) (e : YamlError)
    (preE : List (String × Node)) (name : String) (postE : List (String × Node))
    (hpre : ∀ x ∈ pre, ∃ v, elC x = .ok v)
    (hc : elC c = .error e)
    (hN : (pre ++ c :: post).length = N)
    (hpreE : ∀ p ∈ preE, ∃ v, elC p.2 = .ok v) :
    (∃ d, convertArray elC N (.seq (pre ++ c :: post)) =
        .error (e.appendTrace d) ∧ d.node_type = c.kind) ∧
    (∃ d, convertVector elC (.seq (pre ++ c :: post)) =
        .error (e.appendTrace d) ∧ d.node_type = c.kind) ∧
    (∃ d, convertMap elC (.map (preE ++ (name, c) :: postE)) =
        .error (e.appendTrace d) ∧ d.node_type = c.kind ∧ d.name = name) := by
  have hN' : pre.length + (post.length + 1) = N := by
    simpa [List.length_append, List.length_cons] using hN
  refine ⟨⟨⟨toString pre.length, "", c.kind⟩, ?_, rfl⟩,
          ⟨⟨toString pre.length, "", c.kind⟩, ?_, rfl⟩,
          ⟨⟨name, "", c.kind⟩, ?_, rfl, rfl⟩⟩
  · have hguard : 0 + pre.length < N := by omega
    have harr := arrayLoop_first_error elC N c e hc pre hpre post 0 [] hguard
    simp only [Nat.zero_add] at harr
    simpa [convertArray, hN] using harr
  · have hvec := vectorLoop_first_error elC c e hc pre hpre post 0 []
    simp only [Nat.zero_add] at hvec
    simpa [convertVector] using hvec
  · have hmap := mapLoop_first_error elC name c e hc preE hpreE postE []
    simpa [convertMap] using hmap

/-- Witness for descriptor_actual_kind: the failing child is a map node in
the sequence cases and a sequence node in the mapping case; the appended
descriptors carry those actual kinds. -/
theorem descriptor_actual_kind_witness :
    (∃ d, convertArray (convert .str) 1 (.seq [.map []]) =
        .error (YamlError.appendTrace
          ⟨"unexpected node type, expected scalar, got map", []⟩ d) ∧
      d.node_type = Node.kind (.map [])) ∧
    (∃ d, convertVector (convert .str) (.seq [.map []]) =
        .error (YamlError.appendTrace
          ⟨"unexpected node type, expected scalar, got map", []⟩ d) ∧
      d.node_type = Node.kind (.map [])) ∧
    (∃ d, convertMap (convert .str) (.map [("k", .map [])]) =
        .error (YamlError.appendTrace
          ⟨"unexpected node type, expected scalar, got map", []⟩ d) ∧
      d.node_type = Node.kind (.map []) ∧ d.name = "k") := by
  have h := descriptor_actual_kind (convert .str) 1 [] (.map []) []
    ⟨"unexpected node type, expected scalar, got map", []⟩ [] "k" []
    (by intro x hx; cases hx) rfl rfl (by intro p hp; cases hp)
  exact h

/-- C10: under the precondition checked before the loop (a sequence node of
exactly N elements), the "sequence too long" branch of the array element
loop is dead: the conversion coincides with running the loop with that
branch removed. -/
theorem array_guard_unreachable (elC : Node → YamlResult Value) (N : Nat)
    (cs : List Node) (h : cs.length = N) :
    convertArray elC N (.seq cs) = arrayLoopNoGuard elC cs 0 [] := by
  have heq := arrayLoop_eq_noGuard elC N cs 0 [] (by omega)
  simpa [convertArray, h] using heq

/-- Witness for array_guard_unreachable on a two-element sequence against
array length 2. -/
theorem array_guard_unreachable_witness :
    convertArray (convert .str) 2 (.seq [.scalar "a", .scalar "b"]) =
      arrayLoopNoGuard (convert .str) [.scalar "a", .scalar "b"] 0 [] :=
  array_guard_unreachable (convert .str) 2 [.scalar "a", .scalar "b"] rfl

end DrParam
